import Mathlib

/-!
Verification of the browser-manager detection library (src/src/lib.rs).

The library discovers installed browsers (Firefox, Chrome, Safari) and their
automation drivers.  All interaction with the operating system — PATH
resolution of an executable name (the `which` crate), file-existence checks
(`PathBuf::is_file`), the OS identifier (`std::env::consts::OS`), the
per-platform configuration directory (the `directories` crate) and directory
creation (`fs::create_dir_all`) — goes through primitives that the spec
declares out of scope.  We embed them as explicit environment records
(`Env`, `DirEnv`) and translate each Rust function into a pure Lean
function over such an environment.  Paths are modelled as `String`s
(Rust's `PathBuf::new().display().to_string()` is the empty string).
-/

set_option autoImplicit false

/-- Modelled from the spec: the `Browser` record of the repository's `browser`
module (the module file is not under `src/`; only `lib.rs` is).  Spec §3 Data
Model: four string attributes `name`, `driver_path`, `browser_path`,
`version`. -/
structure Browser where
  name : String
  driver_path : String
  browser_path : String
  version : String
deriving DecidableEq

/-- Modelled from the spec: `Browser::new`, the plain constructor used by
`lib.rs` with arguments in the order name, driver path, browser path,
version. -/
def Browser.new (name driver_path browser_path version : String) : Browser :=
  ⟨name, driver_path, browser_path, version⟩

/-- The read-only environment the detection logic consults:
`which` is PATH resolution (`Ok path` becomes `some path`, any error becomes
`none`), `is_file` is `PathBuf::is_file`, and `os` is `env::consts::OS`. -/
structure Env where
  which : String → Option String
  is_file : String → Bool
  os : String

/-- Translation of `can_find_driver` (lib.rs:44-50): return the resolved
path on success and the empty path (`PathBuf::new()`) on any error. -/
def can_find_driver (env : Env) (driver : String) : String :=
  match env.which driver with
  | some path => path
  | none => ""

/-- Does the character list start with the pattern? (Rust `str::contains`
helper.) -/
def chars_start_with : List Char → List Char → Bool
  | _, [] => true
  | [], _ :: _ => false
  | a :: s, b :: t => a == b && chars_start_with s t

/-- Substring occurrence test on character lists. -/
def chars_contain (pat : List Char) : List Char → Bool
  | [] => pat.isEmpty
  | a :: t => chars_start_with (a :: t) pat || chars_contain pat t

/-- Rust `str::contains`: `s` contains `pat` as a contiguous substring. -/
def str_contains (s pat : String) : Bool :=
  chars_contain pat.data s.data

/-- Translation of `is_mac` (lib.rs:185-187): the OS identifier equals
`"macos"`. -/
def is_mac (env : Env) : Bool :=
  env.os == "macos"

/-- Translation of `check_path` (lib.rs:169-183): if the fixed path exists as
a file, build a `Browser` from it (attaching the driver via
`can_find_driver`), otherwise `None`. -/
def check_path (env : Env) (name : String) (path : String) (driver : String) :
    Option Browser :=
  if env.is_file path then
    some (Browser.new name (can_find_driver env driver) path "")
  else
    none

/-- The fixed ordered candidate list of `get_available_browsers`
(lib.rs:107). -/
def browser_candidates : List String :=
  ["firefox", "firefox-bin", "Google Chrome", "chrome"]

/-- Loop body of the PATH scan in `get_available_browsers` (lib.rs:110-134):
on a successful resolution, classify by substring containment of
`"firefox"` in the resolved path and push the corresponding `Browser`. -/
def scan_step (env : Env) (acc : List Browser) (exe : String) : List Browser :=
  match env.which exe with
  | some path =>
      if str_contains path "firefox" then
        acc ++ [Browser.new "firefox" (can_find_driver env "geckodriver") path ""]
      else
        acc ++ [Browser.new "chrome" (can_find_driver env "chromedriver") path ""]
  | none => acc

/-- The PATH scan of `get_available_browsers` (lib.rs:110-134): fold the loop
body over the fixed candidate list, starting from the empty vector. -/
def scan_path_browsers (env : Env) : List Browser :=
  browser_candidates.foldl (scan_step env) []

/-- Fixed macOS Firefox install path (lib.rs:141). -/
def firefox_app_path : String :=
  "/Applications/Firefox.app/Contents/MacOS/firefox-bin"

/-- Fixed macOS Chrome install path (lib.rs:149). -/
def chrome_app_path : String :=
  "/Applications/Google Chrome.app/Contents/MacOS/Google Chrome"

/-- The hardcoded-path fallback block of `get_available_browsers`
(lib.rs:137-154): probe the two fixed `/Applications` paths via `check_path`
and push each hit. -/
def add_fallback (env : Env) (acc : List Browser) : List Browser :=
  let acc :=
    match check_path env "firefox" firefox_app_path "geckodriver" with
    | some browser => acc ++ [browser]
    | none => acc
  match check_path env "chrome" chrome_app_path "chromedriver" with
  | some browser => acc ++ [browser]
  | none => acc

/-- The Safari entry appended on macOS (lib.rs:157-162). -/
def safari_browser : Browser :=
  Browser.new "Safari" "/usr/bin/safaridriver"
    "/Applications/Safari.app/Contents/MacOS/Safari" ""

/-- The catalog before the Safari step: the PATH scan (lib.rs:110-134)
followed, only when the scan found nothing (`len() == 0`, lib.rs:136), by
the hardcoded-path fallback (lib.rs:137-154). -/
def pre_safari_browsers (env : Env) : List Browser :=
  let available_browsers := scan_path_browsers env
  if available_browsers.length == 0 then add_fallback env available_browsers
  else available_browsers

/-- Translation of `get_available_browsers` (lib.rs:106-167): PATH scan, the
gated fallback, then the unconditional Safari entry whenever `is_mac`. -/
def get_available_browsers (env : Env) : List Browser :=
  let available_browsers := pre_safari_browsers env
  if is_mac env then available_browsers ++ [safari_browser]
  else available_browsers

/-- The search loop of `find_browser_for` (lib.rs:97-102): first entry whose
`name` equals the query, if any. -/
def find_first_by_name : List Browser → String → Option Browser
  | [], _ => none
  | browser :: rest, n =>
      if browser.name == n then some browser else find_first_by_name rest n

/-- Translation of `find_browser_for` (lib.rs:93-104): build the catalog and
linearly scan it for the first name match. -/
def find_browser_for (env : Env) (browser_name : String) : Option Browser :=
  find_first_by_name (get_available_browsers env) browser_name

/-- Stand-in for `std::io::Error` in the declared return type of
`get_project_dir`. -/
structure IOError where
  msg : String
deriving DecidableEq

/-- Result of running a Rust function that may `panic!`: either a returned
value or a fatal abort with the panic message. -/
inductive Outcome (α : Type) where
  | ok : α → Outcome α
  | fatal : String → Outcome α
deriving DecidableEq

/-- Environment of `get_project_dir`: `proj_config_dir` is
`ProjectDirs::from("org", "webdriver", "browser-manager")` followed by
`config_dir()` (`none` when the platform cannot determine it), `is_dir` is
the current filesystem state, and `create_ok` says whether
`fs::create_dir_all` succeeds on a path. -/
structure DirEnv where
  proj_config_dir : Option String
  is_dir : String → Bool
  create_ok : String → Bool

/-- Translation of `get_project_dir` (lib.rs:60-79), state-passing: return
the config dir as-is when it is already a directory; otherwise create it
(on success the directory now exists) and return it; `panic!` when the
platform has no config dir or creation fails.  The returned value keeps the
declared `io::Result` layer (`Except IOError String`) of the source. -/
def get_project_dir (env : DirEnv) : Outcome (Except IOError String × DirEnv) :=
  match env.proj_config_dir with
  | some selenium_dir =>
      if env.is_dir selenium_dir then
        .ok (.ok selenium_dir, env)
      else
        if env.create_ok selenium_dir then
          .ok (.ok selenium_dir,
            { env with
              is_dir := fun p => if p == selenium_dir then true else env.is_dir p })
        else
          .fatal "Could not create the project directory"
  | none => .fatal "Could not look up project directory"

/-- Test environment for the spec's scenario: PATH holds
`/usr/local/bin/firefox` and `/usr/local/bin/geckodriver`, nothing else;
not macOS. -/
def env_scenario : Env where
  which s :=
    if s == "firefox" then some "/usr/local/bin/firefox"
    else if s == "geckodriver" then some "/usr/local/bin/geckodriver"
    else none
  is_file _ := false
  os := "linux"

/-- Test environment: bare macOS machine, nothing on PATH, no files. -/
def env_bare_mac : Env where
  which _ := none
  is_file _ := false
  os := "macos"

/-- Test environment: Firefox on PATH but its driver missing; not macOS. -/
def env_no_driver : Env where
  which s := if s == "firefox" then some "/usr/bin/firefox" else none
  is_file _ := false
  os := "linux"

/-- Test environment: empty PATH, but the hardcoded Firefox application path
exists as a file, on a non-mac OS. -/
def env_linux_fallback : Env where
  which _ := none
  is_file p := p == firefox_app_path
  os := "linux"

/-- Test filesystem state for the project-directory resolver: a determinable
config directory that does not exist yet and whose creation succeeds. -/
def denv_fresh : DirEnv where
  proj_config_dir := some "/home/alice/.config/browsermanager"
  is_dir _ := false
  create_ok _ := true

/-- The state `denv_fresh` evolves to once `get_project_dir` has created the
config directory. -/
def denv_fresh_created : DirEnv :=
  { denv_fresh with
    is_dir := fun p =>
      if p == "/home/alice/.config/browsermanager" then true
      else denv_fresh.is_dir p }

/-- Spec-side description of §4.2 step 2, per candidate: on a successful PATH
resolution, the entry the spec asks for — classified by substring
containment of `"firefox"` in the resolved path, `name` and driver lookup
chosen accordingly, `browser_path` the resolved path, `version` empty. -/
def classify_candidate (env : Env) (exe : String) : Option Browser :=
  (env.which exe).map fun path =>
    if str_contains path "firefox" then
      Browser.new "firefox" (can_find_driver env "geckodriver") path ""
    else
      Browser.new "chrome" (can_find_driver env "chromedriver") path ""

theorem foldl_scan_step_eq (env : Env) (l : List String) (acc : List Browser) :
    l.foldl (scan_step env) acc = acc ++ l.filterMap (classify_candidate env) := by
  induction l generalizing acc with
  | nil => simp
  | cons exe rest ih =>
      rw [List.foldl_cons, List.filterMap_cons]
      cases h : env.which exe with
      | none => simp [scan_step, classify_candidate, h, ih]
      | some path =>
          by_cases hc : str_contains path "firefox" = true
          · simp [scan_step, classify_candidate, h, hc, ih]
          · simp [scan_step, classify_candidate, h, hc, ih]

theorem check_path_name (env : Env) (n p d : String) (b : Browser)
    (h : check_path env n p d = some b) : b.name = n := by
  unfold check_path at h
  by_cases hf : env.is_file p = true
  · rw [if_pos hf] at h
    injection h with h2
    subst h2
    rfl
  · rw [if_neg hf] at h
    cases h

theorem add_fallback_eq (env : Env) (acc : List Browser) :
    add_fallback env acc =
      acc ++ (check_path env "firefox" firefox_app_path "geckodriver").toList
          ++ (check_path env "chrome" chrome_app_path "chromedriver").toList := by
  unfold add_fallback
  cases check_path env "firefox" firefox_app_path "geckodriver" <;>
    cases check_path env "chrome" chrome_app_path "chromedriver" <;> simp

theorem mem_scan_name (env : Env) (b : Browser)
    (hb : b ∈ scan_path_browsers env) :
    b.name = "firefox" ∨ b.name = "chrome" := by
  unfold scan_path_browsers at hb
  rw [foldl_scan_step_eq] at hb
  simp only [List.nil_append, List.mem_filterMap] at hb
  obtain ⟨exe, -, hexe⟩ := hb
  unfold classify_candidate at hexe
  cases hw : env.which exe with
  | none => rw [hw] at hexe; cases hexe
  | some path =>
      rw [hw] at hexe
      simp only [Option.map_some'] at hexe
      by_cases hc : str_contains path "firefox" = true
      · rw [if_pos hc] at hexe
        injection hexe with h2
        subst h2
        exact Or.inl rfl
      · rw [if_neg hc] at hexe
        injection hexe with h2
        subst h2
        exact Or.inr rfl

theorem mem_pre_safari_name (env : Env) (b : Browser)
    (hb : b ∈ pre_safari_browsers env) :
    b.name = "firefox" ∨ b.name = "chrome" := by
  unfold pre_safari_browsers at hb
  by_cases hlen : ((scan_path_browsers env).length == 0) = true
  · rw [if_pos hlen, add_fallback_eq] at hb
    simp only [List.append_assoc, List.mem_append, Option.mem_toList,
      Option.mem_def] at hb
    rcases hb with hb | hb | hb
    · exact mem_scan_name env b hb
    · exact Or.inl (check_path_name env _ _ _ b hb)
    · exact Or.inr (check_path_name env _ _ _ b hb)
  · rw [if_neg hlen] at hb
    exact mem_scan_name env b hb

theorem find_first_by_name_some (l : List Browser) (n : String) (b : Browser)
    (h : find_first_by_name l n = some b) :
    b.name = n ∧ ∃ l₁ l₂, l = l₁ ++ b :: l₂ ∧ ∀ x ∈ l₁, x.name ≠ n := by
  induction l with
  | nil => cases h
  | cons a t ih =>
      by_cases ha : a.name = n
      · rw [find_first_by_name, if_pos (by simp [ha])] at h
        injection h with h2
        subst h2
        exact ⟨ha, [], t, rfl, by simp⟩
      · rw [find_first_by_name, if_neg (by simp [ha])] at h
        obtain ⟨hn, l₁, l₂, ht, hl₁⟩ := ih h
        refine ⟨hn, a :: l₁, l₂, by rw [ht, List.cons_append], ?_⟩
        intro x hx
        rcases List.mem_cons.mp hx with rfl | hx
        · exact ha
        · exact hl₁ x hx

theorem find_first_by_name_none (l : List Browser) (n : String) :
    find_first_by_name l n = none ↔ ∀ b ∈ l, b.name ≠ n := by
  induction l with
  | nil => simp [find_first_by_name]
  | cons a t ih =>
      by_cases ha : a.name = n
      · simp [find_first_by_name, ha]
      · simp [find_first_by_name, ha, ih]

theorem find_first_by_name_mem (l : List Browser) (b : Browser) (hb : b ∈ l) :
    ∃ x, find_first_by_name l b.name = some x ∧ x.name = b.name := by
  induction l with
  | nil => cases hb
  | cons a t ih =>
      by_cases ha : a.name = b.name
      · exact ⟨a, by rw [find_first_by_name, if_pos (by simp [ha])], ha⟩
      · rcases List.mem_cons.mp hb with rfl | hbt
        · exact absurd rfl ha
        · obtain ⟨x, hx, hxn⟩ := ih hbt
          exact ⟨x, by rw [find_first_by_name, if_neg (by simp [ha]), hx], hxn⟩

/-- Claim C1: for every candidate executable name in the fixed ordered list
`["firefox", "firefox-bin", "Google Chrome", "chrome"]` whose PATH
resolution succeeds, the catalog builder's scan appends exactly one
`Browser`, classified by substring containment of `"firefox"` in the
resolved path: a Firefox hit gets `name = "firefox"` and the driver path of
`"geckodriver"`, any other hit gets `name = "chrome"` and the driver path
of `"chromedriver"`; in both cases `browser_path` is the resolved path and
`version` is empty.  Candidates whose resolution fails contribute
nothing. -/
theorem scan_appends_one_classified_per_hit (env : Env) :
    scan_path_browsers env =
      browser_candidates.filterMap (classify_candidate env) := by
  unfold scan_path_browsers
  rw [foldl_scan_step_eq]
  exact List.nil_append _

/-- Claim C2: the hardcoded-path fallback entries contribute to the catalog
only when the PATH scan produced zero entries; whenever the scan found at
least one browser, the catalog is exactly the scan result plus (on macOS)
the Safari entry — no fallback entry appears. -/
theorem fallback_gated_on_empty_scan (env : Env)
    (h : scan_path_browsers env ≠ []) :
    get_available_browsers env =
      scan_path_browsers env ++ if is_mac env then [safari_browser] else [] := by
  have hlen : ((scan_path_browsers env).length == 0) = false := by
    cases hE : scan_path_browsers env with
    | nil => exact absurd hE h
    | cons a l => rfl
  unfold get_available_browsers pre_safari_browsers
  simp only [hlen, Bool.false_eq_true, if_false]
  cases hm : is_mac env <;> simp [hm]

/-- Witness for C2 at a concrete environment whose PATH scan finds
Firefox. -/
theorem fallback_gated_on_empty_scan_witness :
    get_available_browsers env_scenario =
      scan_path_browsers env_scenario ++
        if is_mac env_scenario then [safari_browser] else [] :=
  fallback_gated_on_empty_scan env_scenario (by decide)

/-- Claim C3: whenever the OS identifier is `"macos"`, the catalog ends with
the Safari entry (name `"Safari"`, driver `/usr/bin/safaridriver`, browser
path `/Applications/Safari.app/Contents/MacOS/Safari`, empty version),
appended after whatever the scan and fallback produced and without any
existence check (the environment's file checks are unconstrained); on any
other OS the catalog is just the pre-Safari part, which never contains an
entry named `"Safari"`. -/
theorem safari_appended_iff_macos (env : Env) :
    (env.os = "macos" →
      get_available_browsers env = pre_safari_browsers env ++ [safari_browser])
    ∧ (env.os ≠ "macos" →
      get_available_browsers env = pre_safari_browsers env)
    ∧ (∀ b ∈ pre_safari_browsers env, b.name ≠ "Safari")
    ∧ safari_browser.name = "Safari"
    ∧ safari_browser.driver_path = "/usr/bin/safaridriver"
    ∧ safari_browser.browser_path = "/Applications/Safari.app/Contents/MacOS/Safari"
    ∧ safari_browser.version = "" := by
  refine ⟨?_, ?_, ?_, rfl, rfl, rfl, rfl⟩
  · intro h
    unfold get_available_browsers
    rw [if_pos (by simp [is_mac, h])]
  · intro h
    unfold get_available_browsers
    rw [if_neg (by simp [is_mac, h])]
  · intro b hb
    rcases mem_pre_safari_name env b hb with hn | hn <;> rw [hn] <;> decide

/-- Witness for C3 on a bare macOS machine: the Safari entry is appended even
though nothing was found and no file exists. -/
theorem safari_appended_iff_macos_witness :
    get_available_browsers env_bare_mac =
      pre_safari_browsers env_bare_mac ++ [safari_browser] :=
  (safari_appended_iff_macos env_bare_mac).1 rfl

/-- Claim C4: `find_browser_for` returns the first catalog entry (in catalog
order) whose `name` equals the input exactly, returns nothing when no entry
matches, and in particular succeeds with a matching name for the name of
every catalog entry. -/
theorem find_browser_for_first_match (env : Env) (browser_name : String) :
    (∀ b, find_browser_for env browser_name = some b →
      b.name = browser_name ∧
        ∃ l₁ l₂, get_available_browsers env = l₁ ++ b :: l₂ ∧
          ∀ x ∈ l₁, x.name ≠ browser_name)
    ∧ (find_browser_for env browser_name = none ↔
      ∀ b ∈ get_available_browsers env, b.name ≠ browser_name)
    ∧ (∀ b ∈ get_available_browsers env,
      ∃ x, find_browser_for env b.name = some x ∧ x.name = b.name) :=
  ⟨fun _ h => find_first_by_name_some _ _ _ h,
   find_first_by_name_none _ _,
   fun b hb => find_first_by_name_mem _ b hb⟩

/-- Witness for C4: in the spec's scenario environment the lookup for
`"firefox"` returns the scanned Firefox entry, whose name is `"firefox"`. -/
theorem find_browser_for_first_match_witness :
    (Browser.new "firefox" "/usr/local/bin/geckodriver"
      "/usr/local/bin/firefox" "").name = "firefox" :=
  ((find_browser_for_first_match env_scenario "firefox").1
    (Browser.new "firefox" "/usr/local/bin/geckodriver"
      "/usr/local/bin/firefox" "")
    (by decide)).1

/-- Claim C5: `can_find_driver` returns the resolved path whenever the PATH
resolution primitive succeeds, and the empty string whenever it fails; it is
a total function, so no error reaches the caller. -/
theorem can_find_driver_total (env : Env) (driver : String) :
    (∀ path, env.which driver = some path → can_find_driver env driver = path)
    ∧ (env.which driver = none → can_find_driver env driver = "") := by
  constructor
  · intro path h
    simp [can_find_driver, h]
  · intro h
    simp [can_find_driver, h]

/-- Witness for C5: geckodriver is resolved in the scenario environment and
chromedriver is not. -/
theorem can_find_driver_total_witness :
    can_find_driver env_scenario "geckodriver" = "/usr/local/bin/geckodriver"
    ∧ can_find_driver env_scenario "chromedriver" = "" :=
  ⟨(can_find_driver_total env_scenario "geckodriver").1
      "/usr/local/bin/geckodriver" (by decide),
   (can_find_driver_total env_scenario "chromedriver").2 (by decide)⟩

/-- Claim C7: every `Browser` in any catalog has name `"firefox"`,
`"chrome"` or `"Safari"`, hence never empty; `driver_path` is not so
constrained — an environment where the browser is found but its driver is
not yields an entry with empty `driver_path` (and non-empty
`browser_path`), the empty string acting as the absence sentinel. -/
theorem catalog_name_invariant :
    (∀ env : Env, ∀ b ∈ get_available_browsers env,
      (b.name = "firefox" ∨ b.name = "chrome" ∨ b.name = "Safari")
        ∧ b.name ≠ "")
    ∧ (∃ env : Env, ∃ b ∈ get_available_browsers env,
      b.driver_path = "" ∧ b.browser_path ≠ "" ∧ b.name ≠ "") := by
  constructor
  · intro env b hb
    unfold get_available_browsers at hb
    have hname : b.name = "firefox" ∨ b.name = "chrome" ∨ b.name = "Safari" := by
      by_cases hm : is_mac env = true
      · rw [if_pos hm] at hb
        rcases List.mem_append.mp hb with hb | hb
        · rcases mem_pre_safari_name env b hb with hn | hn
          · exact Or.inl hn
          · exact Or.inr (Or.inl hn)
        · have hbs : b = safari_browser := List.mem_singleton.mp hb
          exact Or.inr (Or.inr (by rw [hbs]; rfl))
      · rw [if_neg hm] at hb
        rcases mem_pre_safari_name env b hb with hn | hn
        · exact Or.inl hn
        · exact Or.inr (Or.inl hn)
    refine ⟨hname, ?_⟩
    rcases hname with hn | hn | hn <;> rw [hn] <;> decide
  · exact ⟨env_no_driver,
      Browser.new "firefox" "" "/usr/bin/firefox" "", by decide, by decide⟩

/-- Witness for C7 at a concrete environment: the entry built for a Firefox
found without its driver has a legal, non-empty name. -/
theorem catalog_name_invariant_witness :
    ((Browser.new "firefox" "" "/usr/bin/firefox" "").name = "firefox"
      ∨ (Browser.new "firefox" "" "/usr/bin/firefox" "").name = "chrome"
      ∨ (Browser.new "firefox" "" "/usr/bin/firefox" "").name = "Safari")
    ∧ (Browser.new "firefox" "" "/usr/bin/firefox" "").name ≠ "" :=
  catalog_name_invariant.1 env_no_driver
    (Browser.new "firefox" "" "/usr/bin/firefox" "") (by decide)

/-- Claim C10: the `/Applications` fallback is not gated on the operating
system: for every environment (any `os` value) whose PATH scan is empty,
the catalog consists of the fallback entries for whichever of the two fixed
paths exist as files, followed by the Safari entry exactly when the OS is
macOS — so a fallback entry can appear on a non-mac system. -/
theorem fallback_ungated_by_os (env : Env)
    (h : scan_path_browsers env = []) :
    get_available_browsers env =
      (if env.is_file firefox_app_path then
        [Browser.new "firefox" (can_find_driver env "geckodriver")
          firefox_app_path ""]
      else [])
      ++ (if env.is_file chrome_app_path then
        [Browser.new "chrome" (can_find_driver env "chromedriver")
          chrome_app_path ""]
      else [])
      ++ (if is_mac env then [safari_browser] else []) := by
  cases hff : env.is_file firefox_app_path <;>
    cases hcf : env.is_file chrome_app_path <;>
      cases hm : is_mac env <;>
        simp [get_available_browsers, pre_safari_browsers, h, add_fallback_eq,
          check_path, hff, hcf, hm]

/-- Witness for C10: on a Linux environment with an empty PATH but the
hardcoded Firefox application path present, a fallback entry appears. -/
theorem fallback_ungated_by_os_witness :
    get_available_browsers env_linux_fallback =
      (if env_linux_fallback.is_file firefox_app_path then
        [Browser.new "firefox" (can_find_driver env_linux_fallback "geckodriver")
          firefox_app_path ""]
      else [])
      ++ (if env_linux_fallback.is_file chrome_app_path then
        [Browser.new "chrome" (can_find_driver env_linux_fallback "chromedriver")
          chrome_app_path ""]
      else [])
      ++ (if is_mac env_linux_fallback then [safari_browser] else []) :=
  fallback_ungated_by_os env_linux_fallback (by decide)

/-- Claim C6: `get_project_dir` returns the computed config directory as-is
when it already exists; otherwise it creates it (after which the directory
exists) and returns it; and it aborts fatally — rather than returning a
recoverable error — both when the platform cannot determine a config
directory and when creation fails. -/
theorem get_project_dir_branches (env : DirEnv) :
    (∀ d, env.proj_config_dir = some d → env.is_dir d = true →
      get_project_dir env = .ok (.ok d, env))
    ∧ (∀ d, env.proj_config_dir = some d → env.is_dir d = false →
      env.create_ok d = true →
      ∃ env2, get_project_dir env = .ok (.ok d, env2) ∧ env2.is_dir d = true)
    ∧ (∀ d, env.proj_config_dir = some d → env.is_dir d = false →
      env.create_ok d = false →
      get_project_dir env = .fatal "Could not create the project directory")
    ∧ (env.proj_config_dir = none →
      get_project_dir env = .fatal "Could not look up project directory") := by
  refine ⟨?_, ?_, ?_, ?_⟩
  · intro d hp hd
    simp only [get_project_dir, hp, hd, if_true]
  · intro d hp hd hc
    refine ⟨{ env with
      is_dir := fun p => if p == d then true else env.is_dir p }, ?_, ?_⟩
    · simp only [get_project_dir, hp, hd, hc, Bool.false_eq_true, if_false,
        if_true]
    · simp
  · intro d hp hd hc
    simp only [get_project_dir, hp, hd, hc, Bool.false_eq_true, if_false]
  · intro hp
    simp only [get_project_dir, hp]

/-- Witness for C6: a fresh state whose creation succeeds takes the creating
branch and ends with the directory present. -/
theorem get_project_dir_branches_witness :
    ∃ env2, get_project_dir denv_fresh =
        .ok (.ok "/home/alice/.config/browsermanager", env2)
      ∧ env2.is_dir "/home/alice/.config/browsermanager" = true :=
  (get_project_dir_branches denv_fresh).2.1
    "/home/alice/.config/browsermanager" rfl rfl rfl

/-- Claim C8: if one call of `get_project_dir` returns a path, then in the
state it leaves behind that directory exists, and a second call in that
state returns the very same path and leaves the state untouched (it takes
the already-exists branch, performing no creation). -/
theorem get_project_dir_idempotent (env : DirEnv) (d : String) (env2 : DirEnv)
    (h : get_project_dir env = .ok (.ok d, env2)) :
    env2.is_dir d = true ∧ get_project_dir env2 = .ok (.ok d, env2) := by
  cases hp : env.proj_config_dir with
  | none => simp [get_project_dir, hp] at h
  | some sd =>
      by_cases hd : env.is_dir sd = true
      · simp only [get_project_dir, hp, hd, if_true, Outcome.ok.injEq,
          Prod.mk.injEq, Except.ok.injEq] at h
        obtain ⟨rfl, rfl⟩ := h
        refine ⟨hd, ?_⟩
        simp only [get_project_dir, hp, hd, if_true]
      · rw [Bool.not_eq_true] at hd
        by_cases hc : env.create_ok sd = true
        · simp only [get_project_dir, hp, hd, hc, Bool.false_eq_true, if_false,
            if_true, Outcome.ok.injEq, Prod.mk.injEq, Except.ok.injEq] at h
          obtain ⟨rfl, rfl⟩ := h
          constructor
          · simp
          · simp [get_project_dir, hp]
        · rw [Bool.not_eq_true] at hc
          simp [get_project_dir, hp, hd, hc] at h

/-- Witness for C8: the state reached from `denv_fresh` contains the created
directory and a second call is a no-op returning the same path. -/
theorem get_project_dir_idempotent_witness :
    denv_fresh_created.is_dir "/home/alice/.config/browsermanager" = true
    ∧ get_project_dir denv_fresh_created =
      .ok (.ok "/home/alice/.config/browsermanager", denv_fresh_created) :=
  get_project_dir_idempotent denv_fresh "/home/alice/.config/browsermanager"
    denv_fresh_created rfl

/-- Claim C9: although the declared return type of `get_project_dir` keeps
the `io::Result` error arm, no execution that returns at all returns an
`Err`: every non-fatal outcome carries an `Ok` path, the failure cases
having aborted instead. -/
theorem get_project_dir_err_arm_dead (env : DirEnv)
    (r : Except IOError String) (env2 : DirEnv)
    (h : get_project_dir env = .ok (r, env2)) :
    ∃ d, r = Except.ok d := by
  cases hp : env.proj_config_dir with
  | none => simp [get_project_dir, hp] at h
  | some sd =>
      by_cases hd : env.is_dir sd = true
      · simp only [get_project_dir, hp, hd, if_true, Outcome.ok.injEq,
          Prod.mk.injEq] at h
        exact ⟨sd, h.1.symm⟩
      · rw [Bool.not_eq_true] at hd
        by_cases hc : env.create_ok sd = true
        · simp only [get_project_dir, hp, hd, hc, Bool.false_eq_true, if_false,
            if_true, Outcome.ok.injEq, Prod.mk.injEq] at h
          exact ⟨sd, h.1.symm⟩
        · rw [Bool.not_eq_true] at hc
          simp [get_project_dir, hp, hd, hc] at h

/-- Witness for C9: the result observed at the concrete fresh state is an
`Ok`. -/
theorem get_project_dir_err_arm_dead_witness :
    ∃ d, (Except.ok "/home/alice/.config/browsermanager" :
        Except IOError String) = Except.ok d :=
  get_project_dir_err_arm_dead denv_fresh
    (Except.ok "/home/alice/.config/browsermanager") denv_fresh_created rfl
